import Mathlib

/-!
Shallow embedding of the DashLayer backend (`src/src-tauri/src/lib.rs`).

The program persists widgets, profiles and dependencies as JSON array
files, tracks live widget windows in a `HashMap<String, WebviewWindow>`
behind a mutex, renders widgets into standalone HTML documents, and
samples system telemetry.

Modelling conventions:
* A JSON record file is a `FileContent α`: `absent` (file does not
  exist), `wellFormed xs` (its content deserializes to `xs`; we assume
  serde round-trips, so a file the program itself wrote is
  `wellFormed`), or `malformed cause` (deserialization fails with
  `cause`).  Directory creation and file writes are modelled as
  succeeding; their failure paths only produce early-returned errors
  and touch no state.
* The `widget_windows` hash map is an association list
  `List (String × Nat)` whose values are abstract window handles;
  `HashMap::insert` (which replaces the binding of an existing key) is
  `insertAssoc`, remove-then-cons, observationally equal as a map.
* `WebviewWindow::close` removes the handle from the set of live host
  windows (`liveWindows`); handles are allocated from `nextHandle`.
* `AppState.attempted` is a ghost trace recording, in order, the widget
  ids for which `create_widget_window` was invoked; the Rust function
  mutates no such field, the trace only makes call order observable.
* Rust `u8`/`u32`/`u64` become `Nat` (claims never exercise overflow),
  `i32` becomes `Int`, and `f32` telemetry arithmetic is carried out in
  `ℚ`; the single f32 rounding step the spec talks about
  (`widget.opacity as f32 / 100.0`) is modelled exactly by `f32div100`.
-/

/-- `Widget` record (lib.rs lines 11-30). -/
structure Widget where
  id : String
  name : String
  html : String
  css : String
  js : String
  width : Nat
  height : Nat
  opacity : Nat
  always_on_top : Bool
  transparent : Bool
  x : Int
  y : Int
  auto_start : Bool
  locked : Bool
deriving Repr, DecidableEq

/-- `Dependency` record (lib.rs lines 42-50). -/
structure Dependency where
  id : String
  url : String
  name : String
  cached : Bool
  added_at : String
deriving Repr, DecidableEq

/-- `Profile` record (lib.rs lines 32-40). -/
structure Profile where
  id : String
  name : String
  widgets : List Widget
  dependencies : List Dependency
  created_at : String
deriving Repr, DecidableEq

/-- State of one on-disk JSON record file. -/
inductive FileContent (α : Type) where
  | absent : FileContent α
  | wellFormed : List α → FileContent α
  | malformed : String → FileContent α
deriving Repr, DecidableEq

/-- The `if file.exists() { read + parse } else { Ok(vec![]) }` pattern
shared by `get_widgets`, `get_profiles` and `get_dependencies`
(lib.rs lines 100-107, 284-291, 383-390): an absent file is an empty
list, a parse failure is an error prefixed with the kind-specific
message. -/
def loadRecords {α : Type} (parseErrMsg : String) :
    FileContent α → Except String (List α)
  | .absent => .ok []
  | .wellFormed xs => .ok xs
  | .malformed cause => .error (parseErrMsg ++ cause)

/-- `get_widgets` (lib.rs lines 93-108), as a function of the widgets
file. -/
def get_widgets (f : FileContent Widget) : Except String (List Widget) :=
  loadRecords "Failed to parse widgets: " f

/-- `get_profiles` (lib.rs lines 277-292). -/
def get_profiles (f : FileContent Profile) : Except String (List Profile) :=
  loadRecords "Failed to parse profiles: " f

/-- `get_dependencies` (lib.rs lines 376-391). -/
def get_dependencies (f : FileContent Dependency) :
    Except String (List Dependency) :=
  loadRecords "Failed to parse dependencies: " f

/-- The upsert step shared verbatim by `save_widget` (lib.rs lines
126-131), `save_profile` (lines 310-315) and `add_dependency` (lines
409-414): `iter().position(|w| w.id == item.id)` followed by
`items[index] = item` when found, `items.push(item)` otherwise. -/
def upsertBy {α : Type} (getId : α → String) (xs : List α) (x : α) :
    List α :=
  match xs.findIdx? (fun y => getId y == getId x) with
  | some i => xs.set i x
  | none => xs ++ [x]

/-- Recursive characterisation of `upsertBy`: replace the first item
with a matching id in place, else append. -/
def upsertByRec {α : Type} (getId : α → String) : List α → α → List α
  | [], x => [x]
  | y :: ys, x =>
      if getId y == getId x then x :: ys else y :: upsertByRec getId ys x

/-- The delete step shared by `delete_widget` (lib.rs line 157),
`delete_profile` (line 341) and `remove_dependency` (line 440):
`retain(|w| w.id != target)`. -/
def deleteBy {α : Type} (getId : α → String) (xs : List α) (i : String) :
    List α :=
  xs.filter (fun x => !(getId x == i))

/-- `save_widget` (lib.rs lines 110-139): load-or-empty, upsert by id,
rewrite the whole file. -/
def save_widget (f : FileContent Widget) (widget : Widget) :
    Except String (FileContent Widget) :=
  (loadRecords "Failed to parse widgets: " f).map
    (fun ws => .wellFormed (upsertBy Widget.id ws widget))

/-- `add_dependency` (lib.rs lines 393-422). -/
def add_dependency (f : FileContent Dependency) (dep : Dependency) :
    Except String (FileContent Dependency) :=
  (loadRecords "Failed to parse dependencies: " f).map
    (fun ds => .wellFormed (upsertBy Dependency.id ds dep))

/-- `remove_dependency` (lib.rs lines 424-448). -/
def remove_dependency (f : FileContent Dependency) (depId : String) :
    Except String (FileContent Dependency) :=
  (loadRecords "Failed to parse dependencies: " f).map
    (fun ds => .wellFormed (deleteBy Dependency.id ds depId))

/-- Combined mutable state: the two record files the claims touch, and
the `AppState` of lib.rs lines 65-68 — `widget_windows` as an
association list from widget id to an abstract window handle, plus the
set of host windows currently open (`liveWindows`), the allocator for
fresh handles, and the ghost call trace `attempted`. -/
structure AppState where
  widgetsFile : FileContent Widget
  depsFile : FileContent Dependency
  windows : List (String × Nat)
  liveWindows : List Nat
  nextHandle : Nat
  attempted : List String
deriving Repr, DecidableEq

/-- `windows.get(&id)` on the hash map. -/
def lookupWin (m : List (String × Nat)) (k : String) : Option Nat :=
  (m.find? (fun p => p.1 == k)).map (fun p => p.2)

/-- `HashMap::insert`, which replaces the binding of an existing key;
modelled as remove-then-cons, observationally the same map. -/
def insertAssoc (m : List (String × Nat)) (k : String) (v : Nat) :
    List (String × Nat) :=
  (k, v) :: m.filter (fun p => !(p.1 == k))

/-- Lib.rs lines 179-182: `if let Some(existing) = windows.get(&widget.id)
{ let _ = existing.close(); }` — the existing window (if any) is closed
(removed from the live set), its map entry untouched. -/
def closeExistingLive (st : AppState) (k : String) : List Nat :=
  match lookupWin st.windows k with
  | some h => st.liveWindows.erase h
  | none => st.liveWindows

/-- `create_widget_window` (lib.rs lines 174-262).  `hostErr` is the
outcome of `WebviewWindowBuilder::build`: `none` means the host created
the window, `some e` that it failed with cause `e`.  On failure the
error is returned after the old window was already closed, with the map
untouched; on success the fresh handle is registered under `widget.id`.
Rendering and the HTML file write are modelled as succeeding. -/
def create_widget_window (widget : Widget) (hostErr : Option String)
    (st : AppState) : Except String String × AppState :=
  let live1 := closeExistingLive st widget.id
  match hostErr with
  | some e =>
      (.error ("Failed to create widget window: " ++ e),
       { st with liveWindows := live1,
                 attempted := st.attempted ++ [widget.id] })
  | none =>
      (.ok widget.id,
       { widgetsFile := st.widgetsFile, depsFile := st.depsFile,
         windows := insertAssoc st.windows widget.id st.nextHandle,
         liveWindows := st.nextHandle :: live1,
         nextHandle := st.nextHandle + 1,
         attempted := st.attempted ++ [widget.id] })

/-- `close_widget_window` (lib.rs lines 264-274): `windows.remove` then
close; a no-op success when the id is untracked. -/
def close_widget_window (widgetId : String) (st : AppState) :
    Except String AppState :=
  match lookupWin st.windows widgetId with
  | some h =>
      .ok { st with windows := st.windows.filter (fun p => !(p.1 == widgetId)),
                    liveWindows := st.liveWindows.erase h }
  | none => .ok st

/-- `delete_widget` (lib.rs lines 141-172): load-or-empty, retain the
non-matching widgets, rewrite the file, then close (but do NOT remove
from the map) the tracked window for the id, discarding its close
result. -/
def delete_widget (widgetId : String) (st : AppState) :
    Except String AppState :=
  match loadRecords "Failed to parse widgets: " st.widgetsFile with
  | .error e => .error e
  | .ok ws =>
      match lookupWin st.windows widgetId with
      | some h =>
          .ok { st with
            widgetsFile := .wellFormed (deleteBy Widget.id ws widgetId),
            liveWindows := st.liveWindows.erase h }
      | none =>
          .ok { st with
            widgetsFile := .wellFormed (deleteBy Widget.id ws widgetId) }

/-- `load_profile` (lib.rs lines 351-373): rewrite `widgets.json` with
`profile.widgets` and `dependencies.json` with `profile.dependencies`,
wholesale. -/
def load_profile (profile : Profile) (st : AppState) :
    Except String AppState :=
  .ok { st with widgetsFile := .wellFormed profile.widgets,
                depsFile := .wellFormed profile.dependencies }

/-- `launch_autostart_widgets` (lib.rs lines 511-520): load all widgets
(propagating a load failure), filter to `auto_start`, and for each call
`create_widget_window`, discarding (`let _ =`) each individual result. -/
def launch_autostart_widgets (hostErr : Widget → Option String)
    (st : AppState) : Except String Unit × AppState :=
  match get_widgets st.widgetsFile with
  | .error e => (.error e, st)
  | .ok widgets =>
      (.ok (),
       (widgets.filter (fun w => w.auto_start)).foldl
         (fun acc w => (create_widget_window w (hostErr w) acc).2) st)

/-- Well-formedness of the window-manager state: distinct map keys,
distinct live handles, and every handle (live or tracked) below the
allocator. -/
def WFState (st : AppState) : Prop :=
  (st.windows.map Prod.fst).Nodup ∧ st.liveWindows.Nodup ∧
  (∀ h ∈ st.liveWindows, h < st.nextHandle) ∧
  (∀ p ∈ st.windows, p.2 < st.nextHandle)

instance (st : AppState) : Decidable (WFState st) := by
  unfold WFState
  infer_instance

/-- Example widgets used as concrete inputs by witnesses. -/
def exW1 : Widget :=
  ⟨"a", "n", "<b>hi</b>", "b \x7b color: red \x7d", "go()", 100, 50, 80,
    false, true, 3, -4, true, false⟩

def exW2 : Widget := { exW1 with name := "renamed" }

def exW3 : Widget := { exW1 with id := "c", auto_start := false }

/-- Example app state used as a concrete input by witnesses: widget
`exW1` (id "a") is persisted and has a tracked, live window handle 0. -/
def exSt : AppState :=
  { widgetsFile := .wellFormed [exW1], depsFile := .wellFormed [],
    windows := [("a", 0)], liveWindows := [0], nextHandle := 1,
    attempted := [] }

/-- One entry of `Disks::new_with_refreshed_list().list()`. -/
structure DiskInfo where
  totalSpace : Nat
  availableSpace : Nat
deriving Repr, DecidableEq

/-- One entry of `Components::new_with_refreshed_list().list()`. -/
structure SensorComponent where
  label : String
  temperature : ℚ
deriving Repr, DecidableEq

/-- What the sysinfo probe reports after the two refreshes: the global
CPU figure, the memory counters, the freshly enumerated disk list and
the sensor component list. -/
structure Probe where
  cpuUsage : ℚ
  totalMemory : Nat
  usedMemory : Nat
  disks : List DiskInfo
  components : List SensorComponent
deriving Repr, DecidableEq

/-- `SystemInfo` record (lib.rs lines 52-63); f32 fields carried in ℚ. -/
structure SystemInfo where
  cpu_usage : ℚ
  memory_usage : ℚ
  memory_total : Nat
  memory_used : Nat
  disk_usage : ℚ
  disk_total : Nat
  disk_used : Nat
  cpu_temperature : Option ℚ
deriving Repr, DecidableEq

/-- Whether `sub` occurs as a contiguous run in the character list `s`. -/
def containsSubAux (sub : List Char) : List Char → Bool
  | [] => List.isPrefixOf sub []
  | c :: cs => List.isPrefixOf sub (c :: cs) || containsSubAux sub cs

/-- Rust `str::contains` on the claims' inputs: substring test. -/
def containsSub (sub s : String) : Bool :=
  containsSubAux sub.toList s.toList

/-- Rust `str::to_lowercase`, per character; the keywords compared
against are ASCII, where the two lowercasings agree. -/
def toLowerStr (s : String) : String :=
  String.mk (s.data.map Char.toLower)

/-- The sensor label heuristic of lib.rs lines 565-568:
lowercased label contains "cpu", "core" or "package". -/
def labelMatchesCpu (label : String) : Bool :=
  let l := toLowerStr label
  containsSub "cpu" l || containsSub "core" l || containsSub "package" l

/-- `get_system_info` (lib.rs lines 523-581) as a function of the probe
readings.  `used = total - available` is Nat subtraction (the u64
subtraction of the source, which assumes `available ≤ total`); both
percentage computations carry the `total > 0` guard of the source. -/
def get_system_info (probe : Probe) : SystemInfo :=
  let memory_usage : ℚ :=
    if 0 < probe.totalMemory then
      ((probe.usedMemory : ℚ) / (probe.totalMemory : ℚ)) * 100
    else 0
  let diskFigures : Nat × Nat × ℚ :=
    match probe.disks.head? with
    | some disk =>
        let total := disk.totalSpace
        let used := total - disk.availableSpace
        let usage : ℚ :=
          if 0 < total then ((used : ℚ) / (total : ℚ)) * 100 else 0
        (total, used, usage)
    | none => (0, 0, 0)
  let cpu_temp :=
    (probe.components.find? (fun c => labelMatchesCpu c.label)).map
      (fun c => c.temperature)
  { cpu_usage := probe.cpuUsage, memory_usage := memory_usage,
    memory_total := probe.totalMemory, memory_used := probe.usedMemory,
    disk_usage := diskFigures.2.2, disk_total := diskFigures.1,
    disk_used := diskFigures.2.1, cpu_temperature := cpu_temp }

/-- Round a nonnegative rational to the nearest binary32 value
(24-bit significand); exact for the normal, non-tied inputs the claims
exercise, which `opacity / 100` for a u8 opacity always is. -/
def f32roundPos (q : ℚ) : ℚ :=
  if q ≤ 0 then 0
  else ((round (q * (2 : ℚ) ^ ((23 : ℤ) - Int.log 2 q)) : ℤ) : ℚ) *
    (2 : ℚ) ^ (Int.log 2 q - (23 : ℤ))

/-- The value of `widget.opacity as f32 / 100.0` (lib.rs line 224):
`n` is exactly representable (n ≤ 255 < 2^24), `100.0` is exact, and
the division rounds the quotient to the nearest f32. -/
def f32div100 (n : Nat) : ℚ := f32roundPos ((n : ℚ) / 100)

/-- The fixed template text of the widget document (lib.rs lines
186-222) up to `<title>`. -/
def tplHead : String :=
  "<!DOCTYPE html>\n<html lang=\"en\" style=\"margin:0;padding:0;height:100%;overflow:hidden;\">\n<head>\n    <meta charset=\"UTF-8\">\n    <meta name=\"viewport\" content=\"width=device-width, initial-scale=1.0\">\n    <title>"

/-- Template text between the title and the opacity value. -/
def tplAfterTitle : String :=
  "</title>\n    <style>\n        *, *::before, *::after \x7b\n            margin: 0;\n            padding: 0;\n            box-sizing: border-box;\n        \x7d\n\n        html, body \x7b\n            width: 100%;\n            height: 100%;\n            overflow: hidden;\n            background: transparent;\n            font-family: -apple-system, BlinkMacSystemFont, \x27Segoe UI\x27, Roboto, sans-serif;\n        \x7d\n\n        #widget-root \x7b\n            width: 100%;\n            height: 100%;\n            opacity: "

/-- Template text between the opacity value and the injected CSS. -/
def tplAfterOpacity : String :=
  ";\n        \x7d\n\n        "

/-- Template text between the injected CSS and the injected HTML. -/
def tplAfterCss : String :=
  "\n    </style>\n</head>\n<body>\n    <div id=\"widget-root\">"

/-- Template text between the injected HTML and the injected JS: the
script block opens with the `try` of the exception guard. -/
def tplAfterHtml : String :=
  "</div>\n    <script>\n        try \x7b "

/-- Closing template text: the `catch` of the exception guard routes a
script failure to the console instead of propagating it. -/
def tplTail : String :=
  " \x7d catch(e) \x7b console.error(\x27Widget error:\x27, e); \x7d\n    </script>\n</body>\n</html>"

/-- The widget document of `create_widget_window` (lib.rs lines
185-228), as a function of the widget and of the text the host
formatter produces for the f32 opacity value. -/
def renderWidget (w : Widget) (opacityText : String) : String :=
  tplHead ++ w.name ++ tplAfterTitle ++ opacityText ++ tplAfterOpacity ++
  w.css ++ tplAfterCss ++ w.html ++ tplAfterHtml ++ w.js ++ tplTail

/-- Example probe used by witnesses: zero memory total, no disks, one
component whose label matches none of the cpu keywords. -/
def exProbe : Probe :=
  ⟨25 / 2, 0, 0, [], [⟨"acpitz", 42⟩]⟩

/-- Expected result of `delete_widget "a" exSt`. -/
def exStDel : AppState :=
  { widgetsFile := .wellFormed [], depsFile := .wellFormed [],
    windows := [("a", 0)], liveWindows := [], nextHandle := 1,
    attempted := [] }

theorem upsertBy_eq_rec {α : Type} (getId : α → String)
    (xs : List α) (x : α) :
    upsertBy getId xs x = upsertByRec getId xs x := by
  induction xs with
  | nil => rfl
  | cons y ys ih =>
      by_cases h : (getId y == getId x) = true
      · simp [upsertBy, upsertByRec, List.findIdx?_cons, h]
      · simp only [Bool.not_eq_true] at h
        cases hfind : (List.findIdx? (fun y => getId y == getId x) ys) with
        | none =>
            have h2 : upsertBy getId ys x = ys ++ [x] := by
              simp [upsertBy, hfind]
            simp [upsertBy, upsertByRec, List.findIdx?_cons, h, hfind,
              ← ih, h2]
        | some i =>
            have h2 : upsertBy getId ys x = ys.set i x := by
              simp [upsertBy, hfind]
            simp [upsertBy, upsertByRec, List.findIdx?_cons, h, hfind,
              ← ih, h2]

theorem filter_upsertByRec_self {α : Type} (getId : α → String)
    (ws : List α) (x : α)
    (hu : ((ws.filter (fun y => getId y == getId x)).length ≤ 1)) :
    (upsertByRec getId ws x).filter (fun y => getId y == getId x) = [x] := by
  induction ws with
  | nil => simp [upsertByRec]
  | cons y ys ih =>
      by_cases h : (getId y == getId x) = true
      · have hnil : ys.filter (fun y => getId y == getId x) = [] := by
          have := hu
          simp only [List.filter_cons, h, if_pos, List.length_cons] at this
          exact List.length_eq_zero.mp (Nat.le_zero.mp
            (Nat.succ_le_succ_iff.mp this))
        simp [upsertByRec, h, List.filter_cons, hnil]
      · simp only [Bool.not_eq_true] at h
        have hu2 : ((ys.filter (fun y => getId y == getId x)).length ≤ 1) := by
          simpa [List.filter_cons, h] using hu
        simp [upsertByRec, h, List.filter_cons, ih hu2]

theorem mem_upsertByRec_self {α : Type} (getId : α → String)
    (ws : List α) (x : α) : x ∈ upsertByRec getId ws x := by
  induction ws with
  | nil => simp [upsertByRec]
  | cons y ys ih =>
      by_cases h : (getId y == getId x) = true
      · simp [upsertByRec, h]
      · simp only [Bool.not_eq_true] at h
        simp [upsertByRec, h, ih]

theorem length_upsertByRec_of_mem {α : Type} (getId : α → String)
    (ws : List α) (x z : α) (hz : z ∈ ws) (hid : getId z = getId x) :
    (upsertByRec getId ws x).length = ws.length := by
  induction ws with
  | nil => cases hz
  | cons y ys ih =>
      by_cases h : (getId y == getId x) = true
      · simp [upsertByRec, h]
      · simp only [Bool.not_eq_true] at h
        rcases List.mem_cons.mp hz with hzy | hzys
        · exfalso
          rw [hzy] at hid
          rw [hid] at h
          simp at h
        · simp [upsertByRec, h, ih hzys]

theorem upsertByRec_replace_in_place {α : Type} (getId : α → String)
    (pre post : List α) (m x : α) (hm : getId m = getId x)
    (hpre : ∀ y ∈ pre, getId y ≠ getId x) :
    upsertByRec getId (pre ++ m :: post) x = pre ++ x :: post := by
  induction pre with
  | nil => simp [upsertByRec, hm]
  | cons y pre ih =>
      have hy : ¬((getId y == getId x) = true) := by
        simp only [beq_iff_eq]
        exact hpre y (List.mem_cons_self y pre)
      simp only [Bool.not_eq_true] at hy
      simp only [List.cons_append, upsertByRec, hy, Bool.false_eq_true,
        if_false]
      rw [List.append_eq, ih (fun z hz => hpre z (List.mem_cons_of_mem y hz))]

/-- C1: starting from a widgets file in which at most one record carries
each id, `save_widget X` succeeds and yields a file from which
`get_widgets` returns a sequence whose sub-sequence of items with id
`X.id` is exactly `[X]`; a second `save_widget` with a record `Y` of the
same id replaces that item, leaving the length unchanged rather than
appending a duplicate. -/
theorem save_widget_roundtrip_unique (ws : List Widget) (X Y : Widget)
    (hu : ∀ i : String, ((ws.filter (fun w => w.id == i)).length ≤ 1))
    (hY : Y.id = X.id) :
    ∃ ws1,
      save_widget (.wellFormed ws) X = .ok (.wellFormed ws1) ∧
      get_widgets (.wellFormed ws1) = .ok ws1 ∧
      ws1.filter (fun w => w.id == X.id) = [X] ∧
      ∃ ws2, save_widget (.wellFormed ws1) Y = .ok (.wellFormed ws2) ∧
        ws2.length = ws1.length := by
  refine ⟨upsertBy Widget.id ws X, rfl, rfl, ?_, upsertBy Widget.id _ Y,
    rfl, ?_⟩
  · rw [upsertBy_eq_rec]
    exact filter_upsertByRec_self Widget.id ws X (hu X.id)
  · rw [upsertBy_eq_rec, upsertBy_eq_rec]
    exact length_upsertByRec_of_mem Widget.id _ Y X
      (mem_upsertByRec_self Widget.id ws X) hY.symm

/-- Witness for C1 at the concrete store `[exW3]` and records `exW1`,
`exW2` (same id). -/
theorem save_widget_roundtrip_unique_witness :
    (∀ i : String, (([exW3].filter (fun w => w.id == i)).length ≤ 1)) ∧
    exW2.id = exW1.id ∧
    (∃ ws1,
      save_widget (.wellFormed [exW3]) exW1 = .ok (.wellFormed ws1) ∧
      get_widgets (.wellFormed ws1) = .ok ws1 ∧
      ws1.filter (fun w => w.id == exW1.id) = [exW1] ∧
      ∃ ws2, save_widget (.wellFormed ws1) exW2 = .ok (.wellFormed ws2) ∧
        ws2.length = ws1.length) :=
  ⟨fun i => by simp [List.filter_cons]; split <;> simp,
   rfl,
   save_widget_roundtrip_unique [exW3] exW1 exW2
     (fun i => by simp [List.filter_cons]; split <;> simp) rfl⟩

/-- C10: when the store already holds an item `m` with `x`'s id, and
`pre` is the (match-free) part of the store before `m`, `upsertBy`
rewrites exactly position of `m` to `x`: every other record stays
unchanged in its original relative position and the replacement is not
moved to the end.  This is the shared upsert step of `save_widget` and
`add_dependency`. -/
theorem upsertBy_frame {α : Type} (getId : α → String)
    (pre post : List α) (m x : α) (hm : getId m = getId x)
    (hpre : ∀ y ∈ pre, getId y ≠ getId x) :
    upsertBy getId (pre ++ m :: post) x = pre ++ x :: post := by
  rw [upsertBy_eq_rec]
  exact upsertByRec_replace_in_place getId pre post m x hm hpre

/-- Witness for C10: replacing `exW1` (id "a") in the concrete store
`[exW3, exW1, exW3]` by `exW2` rewrites only the middle position. -/
theorem upsertBy_frame_witness :
    exW1.id = exW2.id ∧ (∀ y ∈ [exW3], y.id ≠ exW2.id) ∧
    upsertBy Widget.id ([exW3] ++ exW1 :: [exW3]) exW2 =
      [exW3] ++ exW2 :: [exW3] :=
  ⟨rfl, by decide,
   upsertBy_frame Widget.id [exW3] [exW3] exW1 exW2 rfl (by decide)⟩

/-- C6: loading a profile always succeeds and is a total overwrite: the
widgets file becomes exactly `P.widgets` and the dependencies file
exactly `P.dependencies`, so any record present before the load and not
contained in the profile is gone — no merge. -/
theorem load_profile_total_overwrite (p : Profile) (st : AppState) :
    ∃ st', load_profile p st = .ok st' ∧
      st'.widgetsFile = .wellFormed p.widgets ∧
      st'.depsFile = .wellFormed p.dependencies ∧
      get_widgets st'.widgetsFile = .ok p.widgets ∧
      get_dependencies st'.depsFile = .ok p.dependencies ∧
      (∀ w ws', get_widgets st'.widgetsFile = .ok ws' → w ∉ p.widgets →
        w ∉ ws') ∧
      (∀ d ds', get_dependencies st'.depsFile = .ok ds' →
        d ∉ p.dependencies → d ∉ ds') := by
  refine ⟨_, rfl, rfl, rfl, rfl, rfl, ?_, ?_⟩
  · intro w ws' hws' hw
    simp only [get_widgets, loadRecords, Except.ok.injEq] at hws'
    rw [← hws']
    exact hw
  · intro d ds' hds' hd
    simp only [get_dependencies, loadRecords, Except.ok.injEq] at hds'
    rw [← hds']
    exact hd

/-- C7: for each of the three record kinds, loading an absent file
succeeds with the empty sequence, while loading malformed content fails
with a typed error naming the parse step and its cause — it never
silently returns a partial or empty collection. -/
theorem load_absent_empty_malformed_error :
    (get_widgets .absent = .ok []) ∧
    (get_profiles .absent = .ok []) ∧
    (get_dependencies .absent = .ok []) ∧
    (∀ cause, get_widgets (.malformed cause) =
      .error ("Failed to parse widgets: " ++ cause)) ∧
    (∀ cause, get_profiles (.malformed cause) =
      .error ("Failed to parse profiles: " ++ cause)) ∧
    (∀ cause, get_dependencies (.malformed cause) =
      .error ("Failed to parse dependencies: " ++ cause)) :=
  ⟨rfl, rfl, rfl, fun _ => rfl, fun _ => rfl, fun _ => rfl⟩

/-- C8: `get_system_info` is total, and on the degenerate probe inputs
it degrades rather than failing: an empty disk list yields zero disk
figures, a component list without a matching label yields no
temperature, and a zero memory total yields a zero memory percentage. -/
theorem get_system_info_safe (probe : Probe) :
    (probe.disks = [] →
      (get_system_info probe).disk_total = 0 ∧
      (get_system_info probe).disk_used = 0 ∧
      (get_system_info probe).disk_usage = 0) ∧
    ((∀ c ∈ probe.components, labelMatchesCpu c.label = false) →
      (get_system_info probe).cpu_temperature = none) ∧
    (probe.totalMemory = 0 → (get_system_info probe).memory_usage = 0) := by
  refine ⟨?_, ?_, ?_⟩
  · intro h
    simp [get_system_info, h]
  · intro h
    simp only [get_system_info]
    rw [List.find?_eq_none.mpr (fun c hc => by simp [h c hc])]
    rfl
  · intro h
    simp [get_system_info, h]

/-- Witness for C8 at the concrete probe `exProbe` (no disks, zero
memory total, one non-matching sensor label). -/
theorem get_system_info_safe_witness :
    ((get_system_info exProbe).disk_total = 0 ∧
      (get_system_info exProbe).disk_used = 0 ∧
      (get_system_info exProbe).disk_usage = 0) ∧
    (get_system_info exProbe).cpu_temperature = none ∧
    (get_system_info exProbe).memory_usage = 0 :=
  ⟨(get_system_info_safe exProbe).1 rfl,
   (get_system_info_safe exProbe).2.1 (by decide),
   (get_system_info_safe exProbe).2.2 rfl⟩

theorem attempted_create (w : Widget) (err : Option String)
    (st : AppState) :
    ((create_widget_window w err st).2).attempted =
      st.attempted ++ [w.id] := by
  cases err <;> rfl

theorem foldl_create_attempted (hostErr : Widget → Option String)
    (l : List Widget) (st : AppState) :
    ((l.foldl (fun acc w => (create_widget_window w (hostErr w) acc).2)
        st).attempted) = st.attempted ++ l.map (fun w => w.id) := by
  induction l generalizing st with
  | nil => simp
  | cons w l ih =>
      simp only [List.foldl_cons, List.map_cons, ih, attempted_create,
        List.append_assoc, List.cons_append, List.nil_append]

/-- C9: with a readable widgets file, `launch_autostart_widgets`
returns success whatever the per-widget host outcomes are, and its
ghost trace shows that a window open was attempted for exactly the
widgets flagged `auto_start`, in stored sequence order — an individual
failure is discarded and never prevents the remaining attempts. -/
theorem launch_autostart_attempts_all (ws : List Widget)
    (hostErr : Widget → Option String) (st : AppState)
    (hfile : st.widgetsFile = .wellFormed ws) :
    (launch_autostart_widgets hostErr st).1 = .ok () ∧
    ((launch_autostart_widgets hostErr st).2).attempted =
      st.attempted ++
        ((ws.filter (fun w => w.auto_start)).map (fun w => w.id)) := by
  unfold launch_autostart_widgets
  rw [hfile]
  exact ⟨rfl, foldl_create_attempted hostErr _ st⟩

/-- Witness for C9 at the concrete state `exSt`, with a host that fails
every window creation: launch still succeeds and still attempts the one
autostart widget. -/
theorem launch_autostart_attempts_all_witness :
    exSt.widgetsFile = .wellFormed [exW1] ∧
    ((launch_autostart_widgets (fun _ => some "boom") exSt).1 = .ok () ∧
     ((launch_autostart_widgets (fun _ => some "boom") exSt).2).attempted =
       exSt.attempted ++
         (([exW1].filter (fun w => w.auto_start)).map (fun w => w.id))) :=
  ⟨rfl,
   launch_autostart_attempts_all [exW1] (fun _ => some "boom") exSt rfl⟩

theorem closeExistingLive_sublist (st : AppState) (k : String) :
    List.Sublist (closeExistingLive st k) st.liveWindows := by
  unfold closeExistingLive
  cases lookupWin st.windows k
  · exact List.Sublist.refl _
  · exact List.erase_sublist _ _

/-- C5: when the host window creation fails during
`create_widget_window`, the command returns an error carrying the
host's cause, and the window map is left as it was — the entry for
`widget.id` (whose window was already closed by the earlier close step)
is neither removed nor replaced, and the allocator is untouched. -/
theorem create_widget_window_failure (w : Widget) (e : String)
    (st : AppState) (hwf : WFState st) :
    (create_widget_window w (some e) st).1 =
      .error ("Failed to create widget window: " ++ e) ∧
    ((create_widget_window w (some e) st).2).windows = st.windows ∧
    ((create_widget_window w (some e) st).2).nextHandle = st.nextHandle ∧
    (∀ h, lookupWin st.windows w.id = some h →
      h ∉ ((create_widget_window w (some e) st).2).liveWindows) := by
  obtain ⟨-, hlive, -, -⟩ := hwf
  refine ⟨rfl, rfl, rfl, ?_⟩
  intro h hlook
  show h ∉ closeExistingLive st w.id
  unfold closeExistingLive
  rw [hlook]
  intro hmem
  exact absurd ((List.Nodup.mem_erase_iff hlive).mp hmem).1 (by simp)

/-- Witness for C5 at the concrete state `exSt` (one tracked window,
handle 0, for id "a") and widget `exW1`. -/
theorem create_widget_window_failure_witness :
    WFState exSt ∧
    ((create_widget_window exW1 (some "boom") exSt).1 =
      .error ("Failed to create widget window: " ++ "boom") ∧
    ((create_widget_window exW1 (some "boom") exSt).2).windows =
      exSt.windows ∧
    ((create_widget_window exW1 (some "boom") exSt).2).nextHandle =
      exSt.nextHandle ∧
    (∀ h, lookupWin exSt.windows exW1.id = some h →
      h ∉ ((create_widget_window exW1 (some "boom") exSt).2).liveWindows)) :=
  ⟨by decide, create_widget_window_failure exW1 "boom" exSt (by decide)⟩

/-- C4 counterexample: at the concrete state `exSt` — widget id "a"
persisted, its window tracked under handle 0 and live — `delete_widget
"a"` succeeds, yet the window-manager map still holds the handle for
"a" while that window is no longer open.  This refutes the claim that
the map entry is removed and that every retained handle refers to a
still-open window. -/
theorem delete_widget_map_entry_remains_cex :
    (delete_widget "a" exSt).toOption.map
      (fun s => (lookupWin s.windows "a", s.liveWindows)) =
      some (some 0, []) := by decide

/-- C4 amended: after `delete_widget id` succeeds the persisted store
contains no widget with that id and the tracked window for the id (if
any) has been closed, but the map is left unchanged — the stale entry
for the id is NOT removed, so the map may hold handles to closed
windows. -/
theorem delete_widget_closes_but_keeps_entry (i : String)
    (st st' : AppState) (hwf : WFState st)
    (hok : delete_widget i st = .ok st') :
    (∃ ws', get_widgets st'.widgetsFile = .ok ws' ∧ ∀ w ∈ ws', w.id ≠ i) ∧
    st'.windows = st.windows ∧
    (∀ h, lookupWin st.windows i = some h → h ∉ st'.liveWindows) := by
  obtain ⟨-, hlive, -, -⟩ := hwf
  unfold delete_widget at hok
  cases hload : loadRecords "Failed to parse widgets: " st.widgetsFile with
  | error e =>
      rw [hload] at hok
      exact absurd hok (by simp)
  | ok ws =>
      rw [hload] at hok
      cases hlook : lookupWin st.windows i with
      | some h0 =>
          rw [hlook] at hok
          simp only [Except.ok.injEq] at hok
          subst hok
          refine ⟨⟨deleteBy Widget.id ws i, rfl, ?_⟩, rfl, ?_⟩
          · intro w hw
            simpa using List.of_mem_filter hw
          · intro h hlook2
            injection hlook2 with hh
            subst hh
            intro hmem
            exact absurd ((List.Nodup.mem_erase_iff hlive).mp hmem).1
              (by simp)
      | none =>
          rw [hlook] at hok
          simp only [Except.ok.injEq] at hok
          subst hok
          refine ⟨⟨deleteBy Widget.id ws i, rfl, ?_⟩, rfl, ?_⟩
          · intro w hw
            simpa using List.of_mem_filter hw
          · intro h hlook2
            exact absurd hlook2 (by simp)

/-- Witness for the amended C4 at the concrete state `exSt`. -/
theorem delete_widget_closes_but_keeps_entry_witness :
    WFState exSt ∧ delete_widget "a" exSt = .ok exStDel ∧
    ((∃ ws', get_widgets exStDel.widgetsFile = .ok ws' ∧
        ∀ w ∈ ws', w.id ≠ "a") ∧
     exStDel.windows = exSt.windows ∧
     (∀ h, lookupWin exSt.windows "a" = some h →
       h ∉ exStDel.liveWindows)) :=
  ⟨by decide, rfl,
   delete_widget_closes_but_keeps_entry "a" exSt exStDel (by decide) rfl⟩

theorem lookupWin_insertAssoc_self (m : List (String × Nat)) (k : String)
    (v : Nat) : lookupWin (insertAssoc m k v) k = some v := by
  simp [lookupWin, insertAssoc, List.find?_cons]

theorem filter_insertAssoc_self (m : List (String × Nat)) (k : String)
    (v : Nat) :
    (insertAssoc m k v).filter (fun p => p.1 == k) = [(k, v)] := by
  have h2 : (m.filter (fun p => !(p.1 == k))).filter
      (fun p => p.1 == k) = [] := by
    rw [List.filter_filter]
    exact List.filter_eq_nil_iff.mpr (fun a _ => by simp)
  simp [insertAssoc, List.filter_cons, h2]

theorem keys_nodup_insertAssoc (m : List (String × Nat)) (k : String)
    (v : Nat) (h : (m.map Prod.fst).Nodup) :
    ((insertAssoc m k v).map Prod.fst).Nodup := by
  unfold insertAssoc
  simp only [List.map_cons]
  refine List.nodup_cons.mpr ⟨?_, ?_⟩
  · intro hk
    obtain ⟨p, hp, hpk⟩ := List.mem_map.mp hk
    have hf := List.of_mem_filter hp
    rw [hpk] at hf
    simp at hf
  · exact h.sublist (List.Sublist.map Prod.fst (List.filter_sublist m))

theorem wf_create_widget_window (w : Widget) (err : Option String)
    (st : AppState) (hwf : WFState st) :
    WFState ((create_widget_window w err st).2) := by
  obtain ⟨hkeys, hlive, hbound, hmapb⟩ := hwf
  have hsub := closeExistingLive_sublist st w.id
  have hlive1 : (closeExistingLive st w.id).Nodup := hlive.sublist hsub
  have hbound1 : ∀ h ∈ closeExistingLive st w.id, h < st.nextHandle :=
    fun h hh => hbound h (hsub.subset hh)
  cases err with
  | some e => exact ⟨hkeys, hlive1, hbound1, hmapb⟩
  | none =>
      refine ⟨keys_nodup_insertAssoc _ _ _ hkeys, ?_, ?_, ?_⟩
      · exact List.nodup_cons.mpr
          ⟨fun hmem => lt_irrefl _ (hbound1 _ hmem), hlive1⟩
      · intro h hh
        rcases List.mem_cons.mp hh with rfl | hh2
        · exact Nat.lt_succ_self _
        · exact Nat.lt_succ_of_lt (hbound1 h hh2)
      · intro p hp
        rcases List.mem_cons.mp hp with rfl | hp2
        · exact Nat.lt_succ_self _
        · exact Nat.lt_succ_of_lt (hmapb p (List.mem_of_mem_filter hp2))

theorem closeExistingLive_after_create (w : Widget) (st : AppState) :
    closeExistingLive ((create_widget_window w none st).2) w.id =
      closeExistingLive st w.id := by
  have h1 : lookupWin ((create_widget_window w none st).2).windows w.id =
      some st.nextHandle := lookupWin_insertAssoc_self _ _ _
  show (match lookupWin ((create_widget_window w none st).2).windows w.id
          with
        | some h => ((create_widget_window w none st).2).liveWindows.erase h
        | none => ((create_widget_window w none st).2).liveWindows) =
      closeExistingLive st w.id
  rw [h1]
  exact List.erase_cons_head _ _

/-- C3: opening preserves the window-map invariants (in particular the
map keys stay distinct, so at most one handle is tracked per widget
id), and opening the same widget twice in succession leaves exactly one
tracked window for that id — the second handle — with the first
window's handle closed (no longer live) and the second live. -/
theorem create_widget_window_at_most_one (w : Widget) (st : AppState)
    (hwf : WFState st) :
    (∀ err, WFState ((create_widget_window w err st).2)) ∧
    (create_widget_window w none st).1 = .ok w.id ∧
    (create_widget_window w none
      (create_widget_window w none st).2).1 = .ok w.id ∧
    ((((create_widget_window w none
        (create_widget_window w none st).2).2).windows.filter
          (fun p => p.1 == w.id)).map (fun p => p.2)) =
      [st.nextHandle + 1] ∧
    st.nextHandle ∉ ((create_widget_window w none
      (create_widget_window w none st).2).2).liveWindows ∧
    st.nextHandle + 1 ∈ ((create_widget_window w none
      (create_widget_window w none st).2).2).liveWindows := by
  obtain ⟨hkeys, hlive, hbound, hmapb⟩ := hwf
  have hc := closeExistingLive_after_create w st
  refine ⟨fun err =>
      wf_create_widget_window w err st ⟨hkeys, hlive, hbound, hmapb⟩,
    rfl, rfl, ?_, ?_, ?_⟩
  · show ((insertAssoc ((create_widget_window w none st).2).windows w.id
        (st.nextHandle + 1)).filter (fun p => p.1 == w.id)).map
          (fun p => p.2) = [st.nextHandle + 1]
    rw [filter_insertAssoc_self]
    rfl
  · show st.nextHandle ∉
      ((st.nextHandle + 1) ::
        closeExistingLive ((create_widget_window w none st).2) w.id)
    rw [hc]
    intro hmem
    rcases List.mem_cons.mp hmem with heq | hmem2
    · omega
    · exact absurd
        (hbound _ ((closeExistingLive_sublist st w.id).subset hmem2))
        (lt_irrefl _)
  · show st.nextHandle + 1 ∈
      ((st.nextHandle + 1) ::
        closeExistingLive ((create_widget_window w none st).2) w.id)
    exact List.mem_cons_self _ _

/-- Witness for C3 at the concrete state `exSt` and widget `exW1`
(whose id "a" is already tracked in `exSt`). -/
theorem create_widget_window_at_most_one_witness :
    WFState exSt ∧
    ((∀ err, WFState ((create_widget_window exW1 err exSt).2)) ∧
    (create_widget_window exW1 none exSt).1 = .ok exW1.id ∧
    (create_widget_window exW1 none
      (create_widget_window exW1 none exSt).2).1 = .ok exW1.id ∧
    ((((create_widget_window exW1 none
        (create_widget_window exW1 none exSt).2).2).windows.filter
          (fun p => p.1 == exW1.id)).map (fun p => p.2)) =
      [exSt.nextHandle + 1] ∧
    exSt.nextHandle ∉ ((create_widget_window exW1 none
      (create_widget_window exW1 none exSt).2).2).liveWindows ∧
    exSt.nextHandle + 1 ∈ ((create_widget_window exW1 none
      (create_widget_window exW1 none exSt).2).2).liveWindows) :=
  ⟨by decide, create_widget_window_at_most_one exW1 exSt (by decide)⟩

theorem f32roundPos_close (q : ℚ) (hq : 0 < q) :
    |f32roundPos q - q| ≤ q * (1 / 2 ^ 24) := by
  have h2 : (0 : ℚ) < 2 := by norm_num
  have h2ne : (2 : ℚ) ≠ 0 := by norm_num
  set e : ℤ := Int.log 2 q with he
  have hne : ¬ q ≤ 0 := not_le.mpr hq
  rw [f32roundPos, if_neg hne]
  set x : ℚ := q * (2 : ℚ) ^ ((23 : ℤ) - e) with hx
  have hq_eq : q = x * (2 : ℚ) ^ (e - (23 : ℤ)) := by
    rw [hx, mul_assoc, ← zpow_add₀ h2ne]
    norm_num
  have hstep1 : |((round x : ℤ) : ℚ) * (2 : ℚ) ^ (e - (23 : ℤ)) - q| =
      |((round x : ℤ) : ℚ) - x| * (2 : ℚ) ^ (e - (23 : ℤ)) := by
    rw [hq_eq, ← sub_mul, abs_mul, abs_of_pos (zpow_pos h2 _)]
  rw [hstep1]
  have hstep2 : |((round x : ℤ) : ℚ) - x| * (2 : ℚ) ^ (e - (23 : ℤ)) ≤
      (1 / 2) * (2 : ℚ) ^ (e - (23 : ℤ)) := by
    apply mul_le_mul_of_nonneg_right _ (le_of_lt (zpow_pos h2 _))
    rw [abs_sub_comm]
    exact abs_sub_round x
  refine le_trans hstep2 ?_
  have hstep3 : (1 / 2 : ℚ) * (2 : ℚ) ^ (e - (23 : ℤ)) =
      (2 : ℚ) ^ e * (1 / 2 ^ 24) := by
    rw [zpow_sub₀ h2ne]
    rw [show ((23 : ℤ)) = ((23 : ℕ) : ℤ) from rfl, zpow_natCast]
    ring
  rw [hstep3]
  exact mul_le_mul_of_nonneg_right (Int.zpow_log_le_self (by norm_num) hq)
    (by norm_num)

theorem f32div100_close (n : Nat) :
    |f32div100 n - (n : ℚ) / 100| ≤ ((n : ℚ) / 100) * (1 / 2 ^ 24) := by
  rcases Nat.eq_zero_or_pos n with hn | hn
  · subst hn
    simp [f32div100, f32roundPos]
  · exact f32roundPos_close _ (by positivity)

/-- C2: the rendered document contains the widget's `html`, `css` and
`js` verbatim as substrings, and the f32 opacity value the renderer
computes equals `opacity / 100` to within binary32 relative tolerance
(one half unit in the last place, ≤ q·2⁻²⁴), for every opacity
representable in the u8 field. -/
theorem renderWidget_verbatim_and_opacity (w : Widget)
    (opacityText : String) (hop : w.opacity ≤ 255) :
    (∃ a b, renderWidget w opacityText = a ++ w.html ++ b) ∧
    (∃ a b, renderWidget w opacityText = a ++ w.css ++ b) ∧
    (∃ a b, renderWidget w opacityText = a ++ w.js ++ b) ∧
    |f32div100 w.opacity - (w.opacity : ℚ) / 100| ≤
      ((w.opacity : ℚ) / 100) * (1 / 2 ^ 24) := by
  refine ⟨⟨tplHead ++ w.name ++ tplAfterTitle ++ opacityText ++
      tplAfterOpacity ++ w.css ++ tplAfterCss,
      tplAfterHtml ++ w.js ++ tplTail, ?_⟩,
    ⟨tplHead ++ w.name ++ tplAfterTitle ++ opacityText ++ tplAfterOpacity,
      tplAfterCss ++ w.html ++ tplAfterHtml ++ w.js ++ tplTail, ?_⟩,
    ⟨tplHead ++ w.name ++ tplAfterTitle ++ opacityText ++
      tplAfterOpacity ++ w.css ++ tplAfterCss ++ w.html ++ tplAfterHtml,
      tplTail, ?_⟩,
    f32div100_close w.opacity⟩ <;>
  simp [renderWidget, String.append_assoc]

/-- Witness for C2 at the concrete widget `exW1` (opacity 80) and the
opacity text "0.8". -/
theorem renderWidget_verbatim_and_opacity_witness :
    exW1.opacity ≤ 255 ∧
    ((∃ a b, renderWidget exW1 "0.8" = a ++ exW1.html ++ b) ∧
     (∃ a b, renderWidget exW1 "0.8" = a ++ exW1.css ++ b) ∧
     (∃ a b, renderWidget exW1 "0.8" = a ++ exW1.js ++ b) ∧
     |f32div100 exW1.opacity - (exW1.opacity : ℚ) / 100| ≤
       ((exW1.opacity : ℚ) / 100) * (1 / 2 ^ 24)) :=
  ⟨by decide, renderWidget_verbatim_and_opacity exW1 "0.8" (by decide)⟩
